import Mathlib

/-!
Verification development for the `directvtunner` repository.

The repository consists of three browser-automation verification scripts:
`verify_frontend.py`, `verify_frontend_status.py` and `verify_ui.py`.
Each script is a linear sequence of effects: (optionally) start a static
file server on a thread, open a page in a headless browser, wait, optionally
click a control, take a screenshot, read the rendered content once, and
print pass/fail lines based on literal substring checks.

We embed each script as a pure function from a browser environment (the
rendered content string, plus per-action failure flags for the fallible
browser actions) to an event trace together with an optional propagated
Python exception.  The server-thread body (`start_server`) is embedded
separately as a function of the bind outcome, since it runs on its own
daemon thread.
-/

namespace Directvtunner

/-- Python's `pat in s` substring test on strings, as used by the scripts'
content checks. -/
def strContains (s pat : String) : Bool :=
  decide (pat.data <:+: s.data)

/-- Observable effects performed by the scripts. -/
inductive Event where
  /-- A `print(...)` call with the resulting output line. -/
  | printLine (s : String)
  /-- Call `os.chdir(dir)`: mutates the process-wide current working directory. -/
  | chdirE (dir : String)
  /-- A successful `socketserver.TCPServer(('', port), Handler)` bind. -/
  | bindPort (port : Nat)
  /-- Call `httpd.serve_forever()`: the accept loop of the static file server. -/
  | serveForever
  /-- Call `server_thread.start()`: launching the daemon server thread. -/
  | threadStart
  /-- Call `time.sleep(n)` for `n` seconds. -/
  | sleepSec (n : Nat)
  /-- Call `p.chromium.launch(...)`. -/
  | browserLaunch
  /-- Call `browser.new_page()`. -/
  | newPage
  /-- A successful `page.goto(url)` navigation. -/
  | gotoURL (url : String)
  /-- A successful click on the control labeled `label`. -/
  | clickE (label : String)
  /-- Call `page.wait_for_timeout(ms)`. -/
  | waitForTimeout (ms : Nat)
  /-- A successful `page.screenshot(path=path)`. -/
  | screenshotE (path : String)
  /-- A successful `page.content()` retrieval of the rendered HTML. -/
  | contentRead
  /-- Call `browser.close()`. -/
  | browserClose
  deriving DecidableEq, Repr

/-- Python exceptions that the scripts can let propagate. -/
inductive PyErr where
  /-- Python `OSError`, e.g. a bind failure on the fixed port. -/
  | osError
  /-- A navigation (`page.goto`) failure raised by the automation library. -/
  | navigationError
  /-- A click failure raised by the automation library. -/
  | clickError
  /-- A screenshot failure raised by the automation library. -/
  | screenshotError
  /-- A `page.content()` failure raised by the automation library. -/
  | contentError
  deriving DecidableEq, Repr

/-- The environment a script run observes: the rendered content the browser
would report, and whether each fallible browser action fails. -/
structure BrowserEnv where
  content : String
  navFails : Bool
  clickFails : Bool
  screenshotFails : Bool
  contentFails : Bool
  deriving Repr

/-- The environment in which every browser action succeeds and the rendered
content is `c`. -/
def okEnv (c : String) : BrowserEnv :=
  ⟨c, false, false, false, false⟩

/-- Outcome of the attempt to bind the fixed TCP port. -/
inductive BindOutcome where
  | bindOk
  | bindErr
  deriving DecidableEq, Repr

/-- Constant `PORT = 8080` in `verify_frontend.py`. -/
def PORT_frontend : Nat := 8080

/-- Constant `PORT = 8081` in `verify_frontend_status.py`. -/
def PORT_frontendStatus : Nat := 8081

/-- Function `start_server` of `verify_frontend.py`: `os.chdir('public')`, then bind
the port, print the serving line and serve forever.  There is no exception
handler, so a bind failure propagates out of the function. -/
def start_server_frontend (b : BindOutcome) : List Event × Option PyErr :=
  match b with
  | .bindOk =>
      ([.chdirE "public", .bindPort PORT_frontend,
        .printLine ("serving at port " ++ toString PORT_frontend),
        .serveForever], none)
  | .bindErr => ([.chdirE "public"], some .osError)

/-- Function `start_server` of `verify_frontend_status.py`: same as the frontend
variant but the `TCPServer` block is wrapped in `try: ... except OSError:
pass`, so a bind failure is swallowed and the function returns normally. -/
def start_server_frontend_status (b : BindOutcome) : List Event × Option PyErr :=
  match b with
  | .bindOk =>
      ([.chdirE "public", .bindPort PORT_frontendStatus,
        .printLine ("serving at port " ++ toString PORT_frontendStatus),
        .serveForever], none)
  | .bindErr => ([.chdirE "public"], none)

/-- The main thread of `verify_frontend.py`: start the server thread, sleep,
launch the browser, navigate to the local server, sleep, screenshot, read the
content once, and print the CinemaOS check line followed by the guarded
TV Shows check line. -/
def verify_frontend (env : BrowserEnv) : List Event × Option PyErr :=
  let t := [Event.threadStart, Event.sleepSec 2, Event.browserLaunch, Event.newPage]
  if env.navFails then (t, some .navigationError) else
  let t := t ++ [Event.gotoURL "http://localhost:8080/index.html", Event.sleepSec 2]
  if env.screenshotFails then (t, some .screenshotError) else
  let t := t ++ [Event.screenshotE "../verification/frontend.png"]
  if env.contentFails then (t, some .contentError) else
  let t := t ++ [Event.contentRead]
  let t := t ++ [if strContains env.content "CinemaOS Movies"
      then Event.printLine "FAILURE: CinemaOS Movies found in page content"
      else Event.printLine "SUCCESS: CinemaOS Movies NOT found in page content"]
  let t := t ++ (if strContains env.content "TV Shows" then
      [if strContains env.content "<h3>TV Shows</h3>"
        then Event.printLine "FAILURE: TV Shows card found"
        else Event.printLine "SUCCESS: TV Shows card NOT found"]
    else [])
  (t ++ [Event.browserClose], none)

/-- The main thread of `verify_frontend_status.py`: start the server thread,
sleep, launch the browser, navigate to the local server, click the Status
button, sleep, screenshot, read the content once, and print only the
CinemaOS check line. -/
def verify_frontend_status (env : BrowserEnv) : List Event × Option PyErr :=
  let t := [Event.threadStart, Event.sleepSec 2, Event.browserLaunch, Event.newPage]
  if env.navFails then (t, some .navigationError) else
  let t := t ++ [Event.gotoURL "http://localhost:8081/index.html"]
  if env.clickFails then (t, some .clickError) else
  let t := t ++ [Event.clickE "Status", Event.sleepSec 1]
  if env.screenshotFails then (t, some .screenshotError) else
  let t := t ++ [Event.screenshotE "../verification/frontend_status.png"]
  if env.contentFails then (t, some .contentError) else
  let t := t ++ [Event.contentRead,
    if strContains env.content "CinemaOS Movies"
      then Event.printLine "FAILURE: CinemaOS Movies found in page content"
      else Event.printLine "SUCCESS: CinemaOS Movies NOT found in page content",
    Event.browserClose]
  (t, none)

/-- The `run` function of `verify_ui.py`, parameterized by `cwd`
(`os.getcwd()`): launch the browser, print the navigation line, navigate to
the local file path, wait, click the Status control, wait, screenshot, read
the content once, print the CinemaOS check line and the guarded TV Shows
check lines. -/
def verify_ui (cwd : String) (env : BrowserEnv) : List Event × Option PyErr :=
  let filePath := "file://" ++ cwd ++ "/docker/app/public/index.html"
  let t := [Event.browserLaunch, Event.newPage,
    Event.printLine ("Navigating to " ++ filePath)]
  if env.navFails then (t, some .navigationError) else
  let t := t ++ [Event.gotoURL filePath, Event.waitForTimeout 1000]
  if env.clickFails then (t, some .clickError) else
  let t := t ++ [Event.clickE "Status", Event.waitForTimeout 500]
  if env.screenshotFails then (t, some .screenshotError) else
  let t := t ++ [Event.screenshotE "verification/status_tab.png"]
  if env.contentFails then (t, some .contentError) else
  let t := t ++ [Event.contentRead]
  let t := t ++ [if strContains env.content "CinemaOS Movies"
      then Event.printLine "FAILURE: CinemaOS Movies text found in page content"
      else Event.printLine "SUCCESS: CinemaOS Movies text not found"]
  let t := t ++ (if strContains env.content "TV Shows" then
      Event.printLine "CHECK: TV Shows text found in page content?" ::
      [if strContains env.content "<h3>TV Shows</h3>"
        then Event.printLine "FAILURE: TV Shows header found"
        else Event.printLine "SUCCESS: TV Shows header not found"]
    else [])
  (t ++ [Event.browserClose], none)

/-- The output lines a trace prints, in order. -/
def printedLines (tr : List Event) : List String :=
  tr.filterMap fun e => match e with
    | .printLine s => some s
    | _ => none

/-- Is `s` one of the fixed pass/fail lines of the TV Shows checks? -/
def isTVCheckLine (s : String) : Bool :=
  s = "FAILURE: TV Shows card found" || s = "SUCCESS: TV Shows card NOT found" ||
  s = "FAILURE: TV Shows header found" || s = "SUCCESS: TV Shows header not found"

/-- Is `s` one of the fixed CinemaOS pass/fail lines? -/
def isCinemaLine (s : String) : Bool :=
  s = "FAILURE: CinemaOS Movies found in page content" ||
  s = "SUCCESS: CinemaOS Movies NOT found in page content" ||
  s = "FAILURE: CinemaOS Movies text found in page content" ||
  s = "SUCCESS: CinemaOS Movies text not found"

/-- Is `s` any substring-check output line (pass/fail or the CHECK note)? -/
def isCheckLine (s : String) : Bool :=
  isCinemaLine s || isTVCheckLine s ||
  s = "CHECK: TV Shows text found in page content?"

/-- The TV Shows pass/fail lines a trace prints. -/
def tvLines (tr : List Event) : List String :=
  (printedLines tr).filter isTVCheckLine

/-- The CinemaOS pass/fail lines a trace prints. -/
def cinemaLines (tr : List Event) : List String :=
  (printedLines tr).filter isCinemaLine

/-- The substring-check lines a trace prints. -/
def checkLines (tr : List Event) : List String :=
  (printedLines tr).filter isCheckLine

/-- Is the event a screenshot? -/
def isScreenshotEvent : Event → Bool
  | .screenshotE _ => true
  | _ => false

/-- The events strictly after the first screenshot of the trace. -/
def afterFirstScreenshot (tr : List Event) : List Event :=
  ((tr.dropWhile fun e => !(isScreenshotEvent e)).drop 1)

/-- The URLs the trace navigates to, in order. -/
def gotoURLs (tr : List Event) : List String :=
  tr.filterMap fun e => match e with
    | .gotoURL u => some u
    | _ => none

/-- Does the trace start a server (server thread launch or port bind)? -/
def startsServer (tr : List Event) : Bool :=
  tr.any fun e => match e with
    | .threadStart => true
    | .bindPort _ => true
    | .serveForever => true
    | _ => false

/-- Number of `page.content()` reads in the trace. -/
def contentReads (tr : List Event) : Nat :=
  tr.countP fun e => decide (e = Event.contentRead)

/-- Does the event mutate filesystem-relevant process state
(the current working directory)? -/
def isFsStateChange : Event → Bool
  | .chdirE _ => true
  | _ => false

/-- Path resolution of a relative path (given as components) against a
working directory (given as components), with `..` popping one component. -/
def resolvePath (cwd : List String) (rel : List String) : List String :=
  rel.foldl (fun acc c => if c = ".." then acc.dropLast else acc ++ [c]) cwd

/-- Split a character list into `/`-separated components, accumulating the
current (reversed) component. -/
def splitSlash : List Char → List Char → List String
  | [], acc => [String.mk acc.reverse]
  | ch :: rest, acc =>
      if ch = '/' then String.mk acc.reverse :: splitSlash rest []
      else splitSlash rest (ch :: acc)

/-- Split a path string into its `/`-separated components. -/
def pathComponents (s : String) : List String :=
  splitSlash s.data []

/-! ### Shared helper lemmas -/

/-- The navigation announcement line of `verify_ui.py` is never a TV Shows
pass/fail line. -/
theorem navLine_not_tv (s : String) : isTVCheckLine ("Navigating to " ++ s) = false := by
  simp [isTVCheckLine, String.ext_iff]

/-- The navigation announcement line of `verify_ui.py` is never a CinemaOS
pass/fail line. -/
theorem navLine_not_cinema (s : String) : isCinemaLine ("Navigating to " ++ s) = false := by
  simp [isCinemaLine, String.ext_iff]

/-- The navigation announcement line of `verify_ui.py` is never a
substring-check line. -/
theorem navLine_not_check (s : String) : isCheckLine ("Navigating to " ++ s) = false := by
  simp [isCheckLine, isCinemaLine, isTVCheckLine, String.ext_iff]

/-- The lines a successful `verify_ui.py` run prints, in order: the
navigation announcement, the CinemaOS check line, then the guarded TV Shows
check lines. -/
theorem printedLines_verify_ui (cwd c : String) :
    printedLines (verify_ui cwd (okEnv c)).1 =
      ("Navigating to " ++ ("file://" ++ cwd ++ "/docker/app/public/index.html")) ::
      (if strContains c "CinemaOS Movies"
        then "FAILURE: CinemaOS Movies text found in page content"
        else "SUCCESS: CinemaOS Movies text not found") ::
      (if strContains c "TV Shows" then
        "CHECK: TV Shows text found in page content?" ::
        [if strContains c "<h3>TV Shows</h3>"
          then "FAILURE: TV Shows header found"
          else "SUCCESS: TV Shows header not found"]
      else []) := by
  cases h1 : strContains c "CinemaOS Movies" <;>
  cases h2 : strContains c "TV Shows" <;>
  cases h3 : strContains c "<h3>TV Shows</h3>" <;>
  simp [verify_ui, okEnv, printedLines, h1, h2, h3]

/-! ### Claims -/

/-- C1 counterexample: on a rendered content that contains neither
"TV Shows" nor "<h3>TV Shows</h3>", both `verify_frontend.py` and
`verify_ui.py` finish without error yet print no TV Shows pass/fail line at
all, contradicting "a success line when it does not [contain the marker], so
one pass/fail line is printed for this check on every run". -/
theorem C1_counterexample :
    strContains "<p>hello</p>" "<h3>TV Shows</h3>" = false ∧
    (verify_frontend (okEnv "<p>hello</p>")).2 = none ∧
    tvLines (verify_frontend (okEnv "<p>hello</p>")).1 = [] ∧
    (verify_ui "/repo" (okEnv "<p>hello</p>")).2 = none ∧
    tvLines (verify_ui "/repo" (okEnv "<p>hello</p>")).1 = [] := by
  decide

/-- C1 (amended): on every successful run of `verify_frontend.py` and
`verify_ui.py`, the TV Shows check prints the failure line when the content
contains "<h3>TV Shows</h3>", the success line when the content contains
"TV Shows" but not "<h3>TV Shows</h3>", and no TV Shows pass/fail line at
all when the content does not contain "TV Shows". -/
theorem C1_tv_check_guarded (c cwd : String) :
    tvLines (verify_frontend (okEnv c)).1 =
      (if strContains c "TV Shows" then
        [if strContains c "<h3>TV Shows</h3>"
          then "FAILURE: TV Shows card found"
          else "SUCCESS: TV Shows card NOT found"]
      else []) ∧
    tvLines (verify_ui cwd (okEnv c)).1 =
      (if strContains c "TV Shows" then
        [if strContains c "<h3>TV Shows</h3>"
          then "FAILURE: TV Shows header found"
          else "SUCCESS: TV Shows header not found"]
      else []) := by
  constructor
  · cases h1 : strContains c "CinemaOS Movies" <;>
    cases h2 : strContains c "TV Shows" <;>
    cases h3 : strContains c "<h3>TV Shows</h3>" <;>
    simp [verify_frontend, okEnv, tvLines, printedLines, h1, h2, h3] <;> decide
  · rw [tvLines, printedLines_verify_ui]
    cases h1 : strContains c "CinemaOS Movies" <;>
    cases h2 : strContains c "TV Shows" <;>
    cases h3 : strContains c "<h3>TV Shows</h3>" <;>
    simp [List.filter_cons, navLine_not_tv] <;> decide

/-- C2: on every successful run, each of the three scripts prints exactly one
CinemaOS line: its fixed FAILURE line if the content contains
"CinemaOS Movies" and its fixed SUCCESS line otherwise. -/
theorem C2_cinema_check (c cwd : String) :
    cinemaLines (verify_frontend (okEnv c)).1 =
      [if strContains c "CinemaOS Movies"
        then "FAILURE: CinemaOS Movies found in page content"
        else "SUCCESS: CinemaOS Movies NOT found in page content"] ∧
    cinemaLines (verify_frontend_status (okEnv c)).1 =
      [if strContains c "CinemaOS Movies"
        then "FAILURE: CinemaOS Movies found in page content"
        else "SUCCESS: CinemaOS Movies NOT found in page content"] ∧
    cinemaLines (verify_ui cwd (okEnv c)).1 =
      [if strContains c "CinemaOS Movies"
        then "FAILURE: CinemaOS Movies text found in page content"
        else "SUCCESS: CinemaOS Movies text not found"] := by
  refine ⟨?_, ?_, ?_⟩
  · cases h1 : strContains c "CinemaOS Movies" <;>
    cases h2 : strContains c "TV Shows" <;>
    cases h3 : strContains c "<h3>TV Shows</h3>" <;>
    simp [verify_frontend, okEnv, cinemaLines, printedLines, h1, h2, h3] <;> decide
  · cases h1 : strContains c "CinemaOS Movies" <;>
    simp [verify_frontend_status, okEnv, cinemaLines, printedLines, h1] <;> decide
  · rw [cinemaLines, printedLines_verify_ui]
    cases h1 : strContains c "CinemaOS Movies" <;>
    cases h2 : strContains c "TV Shows" <;>
    cases h3 : strContains c "<h3>TV Shows</h3>" <;>
    simp [List.filter_cons, navLine_not_cinema] <;> decide

/-- C3: when binding the fixed local port fails, `start_server` of
`verify_frontend.py` lets the exception propagate (the thread body finishes
with an uncaught `OSError`), while `start_server` of
`verify_frontend_status.py` swallows it with `except OSError: pass` and
returns normally, having performed only the `chdir`. -/
theorem C3_bind_failure_handling :
    (start_server_frontend BindOutcome.bindErr).2 = some PyErr.osError ∧
    (start_server_frontend_status BindOutcome.bindErr).2 = none ∧
    (start_server_frontend_status BindOutcome.bindErr).1 = [Event.chdirE "public"] := by
  decide

/-- C4: in every script, a failure of any fallible browser action
(navigation, click, content read, screenshot) propagates as an uncaught
exception — the run ends with a pending error — and no substring-check
pass/fail line is printed. -/
theorem C4_browser_failures (env : BrowserEnv) :
    ((env.navFails = true ∨ env.screenshotFails = true ∨ env.contentFails = true) →
      (verify_frontend env).2.isSome = true ∧ checkLines (verify_frontend env).1 = []) ∧
    ((env.navFails = true ∨ env.clickFails = true ∨ env.screenshotFails = true ∨
        env.contentFails = true) →
      (verify_frontend_status env).2.isSome = true ∧
      checkLines (verify_frontend_status env).1 = []) ∧
    (∀ cwd, (env.navFails = true ∨ env.clickFails = true ∨ env.screenshotFails = true ∨
        env.contentFails = true) →
      (verify_ui cwd env).2.isSome = true ∧ checkLines (verify_ui cwd env).1 = []) := by
  obtain ⟨c, nv, ck, sh, ct⟩ := env
  cases nv <;> cases ck <;> cases sh <;> cases ct <;>
    simp [verify_frontend, verify_frontend_status, verify_ui, checkLines,
      printedLines, navLine_not_check]

/-- C4 witness: at concrete failing environments, each script ends with a
pending error and prints no check line. -/
theorem C4_browser_failures_witness :
    ((verify_frontend ⟨"", true, false, false, false⟩).2.isSome = true ∧
      checkLines (verify_frontend ⟨"", true, false, false, false⟩).1 = []) ∧
    ((verify_frontend_status ⟨"", false, true, false, false⟩).2.isSome = true ∧
      checkLines (verify_frontend_status ⟨"", false, true, false, false⟩).1 = []) ∧
    ((verify_ui "/repo" ⟨"", false, false, false, true⟩).2.isSome = true ∧
      checkLines (verify_ui "/repo" ⟨"", false, false, false, true⟩).1 = []) :=
  ⟨(C4_browser_failures ⟨"", true, false, false, false⟩).1 (Or.inl rfl),
   (C4_browser_failures ⟨"", false, true, false, false⟩).2.1 (Or.inr (Or.inl rfl)),
   (C4_browser_failures ⟨"", false, false, false, true⟩).2.2 "/repo"
     (Or.inr (Or.inr (Or.inr rfl)))⟩

/-- C5: in both status-view variants, the successful click on the control
labeled "Status" occurs strictly before the screenshot: the trace decomposes
as a prefix with no screenshot, the click, a middle part with no screenshot,
and then the screenshot. -/
theorem C5_click_before_screenshot (c cwd : String) :
    (∃ t1 t2 t3, (verify_frontend_status (okEnv c)).1 =
        t1 ++ [Event.clickE "Status"] ++ t2 ++
          [Event.screenshotE "../verification/frontend_status.png"] ++ t3 ∧
        t1.all (fun e => !(isScreenshotEvent e)) = true ∧
        t2.all (fun e => !(isScreenshotEvent e)) = true) ∧
    (∃ t1 t2 t3, (verify_ui cwd (okEnv c)).1 =
        t1 ++ [Event.clickE "Status"] ++ t2 ++
          [Event.screenshotE "verification/status_tab.png"] ++ t3 ∧
        t1.all (fun e => !(isScreenshotEvent e)) = true ∧
        t2.all (fun e => !(isScreenshotEvent e)) = true) := by
  constructor
  · refine ⟨[Event.threadStart, Event.sleepSec 2, Event.browserLaunch, Event.newPage,
      Event.gotoURL "http://localhost:8081/index.html"], [Event.sleepSec 1],
      [Event.contentRead,
        if strContains c "CinemaOS Movies"
          then Event.printLine "FAILURE: CinemaOS Movies found in page content"
          else Event.printLine "SUCCESS: CinemaOS Movies NOT found in page content",
        Event.browserClose], ?_, ?_, ?_⟩
    · simp [verify_frontend_status, okEnv]
    · decide
    · decide
  · refine ⟨[Event.browserLaunch, Event.newPage,
      Event.printLine ("Navigating to " ++
        ("file://" ++ cwd ++ "/docker/app/public/index.html")),
      Event.gotoURL ("file://" ++ cwd ++ "/docker/app/public/index.html"),
      Event.waitForTimeout 1000], [Event.waitForTimeout 500],
      [Event.contentRead] ++
        [if strContains c "CinemaOS Movies"
          then Event.printLine "FAILURE: CinemaOS Movies text found in page content"
          else Event.printLine "SUCCESS: CinemaOS Movies text not found"] ++
        (if strContains c "TV Shows" then
          Event.printLine "CHECK: TV Shows text found in page content?" ::
          [if strContains c "<h3>TV Shows</h3>"
            then Event.printLine "FAILURE: TV Shows header found"
            else Event.printLine "SUCCESS: TV Shows header not found"]
        else []) ++ [Event.browserClose], ?_, ?_, ?_⟩
    · simp [verify_ui, okEnv]
    · simp [isScreenshotEvent]
    · decide

/-- C6: in every script, the full-page screenshot is captured before the
rendered content is retrieved — the trace decomposes as a prefix containing
no check line, then the screenshot immediately followed by the content read —
so all substring checks and their pass/fail printing happen after the
screenshot. -/
theorem C6_screenshot_before_checks (c cwd : String) :
    (∃ t1 t3, (verify_frontend (okEnv c)).1 =
        t1 ++ [Event.screenshotE "../verification/frontend.png", Event.contentRead] ++ t3 ∧
        checkLines t1 = []) ∧
    (∃ t1 t3, (verify_frontend_status (okEnv c)).1 =
        t1 ++ [Event.screenshotE "../verification/frontend_status.png",
          Event.contentRead] ++ t3 ∧
        checkLines t1 = []) ∧
    (∃ t1 t3, (verify_ui cwd (okEnv c)).1 =
        t1 ++ [Event.screenshotE "verification/status_tab.png", Event.contentRead] ++ t3 ∧
        checkLines t1 = []) := by
  refine ⟨⟨[Event.threadStart, Event.sleepSec 2, Event.browserLaunch, Event.newPage,
      Event.gotoURL "http://localhost:8080/index.html", Event.sleepSec 2],
      [if strContains c "CinemaOS Movies"
        then Event.printLine "FAILURE: CinemaOS Movies found in page content"
        else Event.printLine "SUCCESS: CinemaOS Movies NOT found in page content"] ++
      (if strContains c "TV Shows" then
        [if strContains c "<h3>TV Shows</h3>"
          then Event.printLine "FAILURE: TV Shows card found"
          else Event.printLine "SUCCESS: TV Shows card NOT found"]
      else []) ++ [Event.browserClose], ?_, ?_⟩,
    ⟨[Event.threadStart, Event.sleepSec 2, Event.browserLaunch, Event.newPage,
      Event.gotoURL "http://localhost:8081/index.html", Event.clickE "Status",
      Event.sleepSec 1],
      [if strContains c "CinemaOS Movies"
        then Event.printLine "FAILURE: CinemaOS Movies found in page content"
        else Event.printLine "SUCCESS: CinemaOS Movies NOT found in page content",
      Event.browserClose], ?_, ?_⟩,
    ⟨[Event.browserLaunch, Event.newPage,
      Event.printLine ("Navigating to " ++
        ("file://" ++ cwd ++ "/docker/app/public/index.html")),
      Event.gotoURL ("file://" ++ cwd ++ "/docker/app/public/index.html"),
      Event.waitForTimeout 1000, Event.clickE "Status", Event.waitForTimeout 500],
      [if strContains c "CinemaOS Movies"
        then Event.printLine "FAILURE: CinemaOS Movies text found in page content"
        else Event.printLine "SUCCESS: CinemaOS Movies text not found"] ++
      (if strContains c "TV Shows" then
        Event.printLine "CHECK: TV Shows text found in page content?" ::
        [if strContains c "<h3>TV Shows</h3>"
          then Event.printLine "FAILURE: TV Shows header found"
          else Event.printLine "SUCCESS: TV Shows header not found"]
      else []) ++ [Event.browserClose], ?_, ?_⟩⟩
  · simp [verify_frontend, okEnv]
  · decide
  · simp [verify_frontend_status, okEnv]
  · decide
  · simp [verify_ui, okEnv]
  · simp [checkLines, printedLines, navLine_not_check]

/-- C7: the two server-starting scripts use distinct compile-time port
constants (8080 and 8081), the server thread binds exactly that port, the
browser navigates to exactly that port on localhost, and `verify_ui.py`
starts no server and navigates directly to a local `file://` path. -/
theorem C7_fixed_ports :
    PORT_frontend = 8080 ∧ PORT_frontendStatus = 8081 ∧
    PORT_frontend ≠ PORT_frontendStatus ∧
    Event.bindPort PORT_frontend ∈ (start_server_frontend BindOutcome.bindOk).1 ∧
    Event.bindPort PORT_frontendStatus ∈ (start_server_frontend_status BindOutcome.bindOk).1 ∧
    (∀ c, gotoURLs (verify_frontend (okEnv c)).1 =
      ["http://localhost:" ++ toString PORT_frontend ++ "/index.html"]) ∧
    (∀ c, gotoURLs (verify_frontend_status (okEnv c)).1 =
      ["http://localhost:" ++ toString PORT_frontendStatus ++ "/index.html"]) ∧
    (∀ cwd c, startsServer (verify_ui cwd (okEnv c)).1 = false ∧
      gotoURLs (verify_ui cwd (okEnv c)).1 =
        ["file://" ++ cwd ++ "/docker/app/public/index.html"]) := by
  refine ⟨by decide, by decide, by decide, by decide, by decide, ?_, ?_, ?_⟩
  · intro c
    cases h1 : strContains c "CinemaOS Movies" <;>
    cases h2 : strContains c "TV Shows" <;>
    cases h3 : strContains c "<h3>TV Shows</h3>" <;>
    simp [verify_frontend, okEnv, gotoURLs, h1, h2, h3] <;> decide
  · intro c
    cases h1 : strContains c "CinemaOS Movies" <;>
    simp [verify_frontend_status, okEnv, gotoURLs, h1] <;> decide
  · intro cwd c
    constructor
    · cases h1 : strContains c "CinemaOS Movies" <;>
      cases h2 : strContains c "TV Shows" <;>
      cases h3 : strContains c "<h3>TV Shows</h3>" <;>
      simp [verify_ui, okEnv, startsServer, h1, h2, h3]
    · cases h1 : strContains c "CinemaOS Movies" <;>
      cases h2 : strContains c "TV Shows" <;>
      cases h3 : strContains c "<h3>TV Shows</h3>" <;>
      simp [verify_ui, okEnv, gotoURLs, h1, h2, h3]

/-- C8: on every successful run, each script reads the rendered page content
exactly once; all substring checks of the run are evaluated against that
single snapshot. -/
theorem C8_single_content_read (c cwd : String) :
    contentReads (verify_frontend (okEnv c)).1 = 1 ∧
    contentReads (verify_frontend_status (okEnv c)).1 = 1 ∧
    contentReads (verify_ui cwd (okEnv c)).1 = 1 := by
  refine ⟨?_, ?_, ?_⟩
  · cases h1 : strContains c "CinemaOS Movies" <;>
    cases h2 : strContains c "TV Shows" <;>
    cases h3 : strContains c "<h3>TV Shows</h3>" <;>
    simp [verify_frontend, okEnv, contentReads, h1, h2, h3]
  · cases h1 : strContains c "CinemaOS Movies" <;>
    simp [verify_frontend_status, okEnv, contentReads, h1]
  · cases h1 : strContains c "CinemaOS Movies" <;>
    cases h2 : strContains c "TV Shows" <;>
    cases h3 : strContains c "<h3>TV Shows</h3>" <;>
    simp [verify_ui, okEnv, contentReads, h1, h2, h3]

/-- C9: `verify_frontend_status.py` performs only the CinemaOS check: it
never prints a TV Shows pass/fail line in any environment, and on a
successful run the only line printed after the screenshot is the one fixed
CinemaOS message selected by the content. -/
theorem C9_status_only_cinema_check :
    (∀ env : BrowserEnv, tvLines (verify_frontend_status env).1 = []) ∧
    (∀ c, printedLines (afterFirstScreenshot (verify_frontend_status (okEnv c)).1) =
      [if strContains c "CinemaOS Movies"
        then "FAILURE: CinemaOS Movies found in page content"
        else "SUCCESS: CinemaOS Movies NOT found in page content"]) := by
  constructor
  · intro env
    obtain ⟨c, nv, ck, sh, ct⟩ := env
    cases nv <;> cases ck <;> cases sh <;> cases ct <;>
    cases h1 : strContains c "CinemaOS Movies" <;>
      simp [verify_frontend_status, tvLines, printedLines, isTVCheckLine, h1]
  · intro c
    cases h1 : strContains c "CinemaOS Movies" <;>
    simp [verify_frontend_status, okEnv, afterFirstScreenshot, printedLines,
      isScreenshotEvent, h1, List.dropWhile]

/-- C10: in both server-starting scripts, `start_server` changes the working
directory to `public` as its very first effect — in particular before any
port bind — and performs no other filesystem-state change; consequently the
fixed relative screenshot paths resolve against the `public` directory, i.e.
to the sibling `verification` directory of the launch directory. -/
theorem C10_chdir_effect :
    (∀ b, ∃ rest, (start_server_frontend b).1 = Event.chdirE "public" :: rest ∧
      rest.all (fun e => !(isFsStateChange e)) = true) ∧
    (∀ b, ∃ rest, (start_server_frontend_status b).1 = Event.chdirE "public" :: rest ∧
      rest.all (fun e => !(isFsStateChange e)) = true) ∧
    (∀ d : List String,
      resolvePath (d ++ ["public"]) (pathComponents "../verification/frontend.png") =
        d ++ ["verification", "frontend.png"]) ∧
    (∀ d : List String,
      resolvePath (d ++ ["public"]) (pathComponents "../verification/frontend_status.png") =
        d ++ ["verification", "frontend_status.png"]) := by
  refine ⟨?_, ?_, ?_, ?_⟩
  · intro b
    cases b <;> exact ⟨_, rfl, by decide⟩
  · intro b
    cases b <;> exact ⟨_, rfl, by decide⟩
  · intro d
    have h : pathComponents "../verification/frontend.png" =
        ["..", "verification", "frontend.png"] := by decide
    rw [h]
    simp [resolvePath]
  · intro d
    have h : pathComponents "../verification/frontend_status.png" =
        ["..", "verification", "frontend_status.png"] := by decide
    rw [h]
    simp [resolvePath]

end Directvtunner
